import Mathlib

/-!
Shallow embedding of the volume-keypad I2C-slave firmware
(src/main.cpp, src/ButtonHandler.h) and proofs about its behaviour.

Machine integers are modelled as Nat with explicit reductions modulo
2 ^ 32 or 2 ^ 64 at the points where the C code narrows or wraps.
On the declared target (STM32F103CBT6, 32-bit ARM, Arduino core)
the type unsigned long is 32 bits wide, while the tick parameter of
updateButtonStates is uint64_t; storing a uint64_t tick into an
unsigned long variable therefore keeps only the value modulo 2 ^ 32.
-/

namespace ShieldPanel

/-- I2C command byte for writing the LED state (main.cpp, CMD_WRITE_LED). -/
def CMD_WRITE_LED : Nat := 0x40

/-- Pin of LED1 (bit 0). -/
def LED1_PIN : Nat := 4

/-- Pin of LED2 (bit 1). -/
def LED2_PIN : Nat := 5

/-- Pin of LED3 (bit 2). -/
def LED3_PIN : Nat := 6

/-- Pin of LED4 (bit 3). -/
def LED4_PIN : Nat := 7

/-- Pin of LED5 (bit 4). -/
def LED5_PIN : Nat := 8

/-- Pin of LED6 (bit 5). -/
def LED6_PIN : Nat := 9

/-- Debounce delay in microseconds (main.cpp, debounceDelay = 50 * 1000). -/
def debounceDelay : Nat := 50 * 1000

/-- Long-press threshold in microseconds (main.cpp, longPressThreshold = 500 * 1000). -/
def longPressThreshold : Nat := 500 * 1000

/-- Subtraction of two uint64 values: a - b computed modulo 2 ^ 64,
as the C expression (uint64_t)a - (uint64_t)b. Both arguments are
assumed below 2 ^ 64. -/
def sub64 (a b : Nat) : Nat := (a + 2 ^ 64 - b) % 2 ^ 64

/-- The global device state of main.cpp: the LED byte, the one-shot
read-mode flag, and the six button flags (pressed / short latch /
long latch for each of the plus and minus buttons). -/
structure DevState where
  ledState : Nat
  lastCommandReadLED : Bool
  btnPlusPressed : Bool
  btnPlusShort : Bool
  btnPlusLong : Bool
  btnMinusPressed : Bool
  btnMinusShort : Bool
  btnMinusLong : Bool
deriving DecidableEq

/-- Startup values of the globals in main.cpp: ledState = 0,
lastCommandReadLED = false, all button flags false. -/
def initDevState : DevState :=
  { ledState := 0
    lastCommandReadLED := false
    btnPlusPressed := false
    btnPlusShort := false
    btnPlusLong := false
    btnMinusPressed := false
    btnMinusShort := false
    btnMinusLong := false }

/-- The button-status response byte assembled in the else branch of
requestEvent (main.cpp lines 160-169): bit 3 plus-pressed, bit 4
plus-short, bit 5 plus-long, bit 0 minus-pressed, bit 1 minus-short,
bit 2 minus-long. -/
def statusByte (s : DevState) : Nat :=
  let r0 : Nat := 0
  let r1 := if s.btnPlusPressed then r0 ||| (1 <<< 3) else r0
  let r2 := if s.btnPlusShort then r1 ||| (1 <<< 4) else r1
  let r3 := if s.btnPlusLong then r2 ||| (1 <<< 5) else r2
  let r4 := if s.btnMinusPressed then r3 ||| (1 <<< 0) else r3
  let r5 := if s.btnMinusShort then r4 ||| (1 <<< 1) else r4
  let r6 := if s.btnMinusLong then r5 ||| (1 <<< 2) else r5
  r6

/-- The I2C receive handler receiveEvent (main.cpp lines 117-139).
The list argument holds the bytes available from the bus, so the
received_bytes count of the C handler is the length of the list.
Fewer than two bytes, or a first byte different from CMD_WRITE_LED,
return with no effect.  Otherwise the handler stores data & 0x3F in
ledState, sets lastCommandReadLED to whether data & 0x80 is nonzero,
and performs one digitalWrite per LED pin; the returned list records
those writes as (pin, level) pairs with true standing for HIGH. -/
def receiveEvent (s : DevState) (bytes : List Nat) : DevState × List (Nat × Bool) :=
  match bytes with
  | command :: data :: _ =>
    if command ≠ CMD_WRITE_LED then (s, [])
    else
      let led := data &&& 0x3F
      ({ s with
          ledState := led
          lastCommandReadLED := if data &&& 0x80 ≠ 0 then true else false },
        [ (LED1_PIN, if led &&& 0x01 ≠ 0 then true else false),
          (LED2_PIN, if led &&& 0x02 ≠ 0 then true else false),
          (LED3_PIN, if led &&& 0x04 ≠ 0 then true else false),
          (LED4_PIN, if led &&& 0x08 ≠ 0 then true else false),
          (LED5_PIN, if led &&& 0x10 ≠ 0 then true else false),
          (LED6_PIN, if led &&& 0x20 ≠ 0 then true else false) ])
  | _ => (s, [])

/-- The I2C request handler requestEvent (main.cpp lines 148-178).
Returns the response byte written to the bus together with the state
after the handler ran.  If lastCommandReadLED is set the response is
ledState | 0x80 and the flag is cleared; otherwise the response is
the button-status byte and the four short/long latches are cleared. -/
def requestEvent (s : DevState) : Nat × DevState :=
  if s.lastCommandReadLED then
    (s.ledState ||| 0x80, { s with lastCommandReadLED := false })
  else
    (statusByte s,
      { s with
          btnPlusShort := false
          btnPlusLong := false
          btnMinusShort := false
          btnMinusLong := false })

/-- The per-button debounce state of main.cpp (the plus-button copy;
the minus-button copy is identical up to renaming): lastVolPlusReading
(an int holding HIGH or LOW, modelled as Bool with true = HIGH),
btnPlusLastDebounceTime and btnPlusPressStart (unsigned long, hence
32 bits wide on the target and always below 2 ^ 32), btnPlusPressed,
btnPlusShort and btnPlusLong. -/
structure BtnState where
  lastReading : Bool
  lastDebounceTime : Nat
  pressed : Bool
  pressStart : Nat
  shortFlag : Bool
  longFlag : Bool
deriving DecidableEq, Repr

/-- Startup values of the per-button globals in main.cpp:
lastVolPlusReading = HIGH, btnPlusLastDebounceTime = 0,
btnPlusPressed = false, btnPlusPressStart = 0, flags false. -/
def initBtnState : BtnState :=
  { lastReading := true
    lastDebounceTime := 0
    pressed := false
    pressStart := 0
    shortFlag := false
    longFlag := false }

/-- One invocation of the per-button half of updateButtonStates
(main.cpp lines 190-207 for the plus button, 210-227 for the minus
button) with raw pin level reading (true = HIGH) and tick counter
ticks (a uint64_t, assumed below 2 ^ 64).  Assignments of ticks to
the unsigned long variables btnPlusLastDebounceTime and
btnPlusPressStart narrow to 32 bits, hence the reductions modulo
2 ^ 32; the subtractions ticks - lastDebounceTime and
ticks - pressStart promote the 32-bit operand to uint64_t and wrap
modulo 2 ^ 64, which sub64 computes. -/
def updateButton (s : BtnState) (reading : Bool) (ticks : Nat) : BtnState :=
  let ldt := if reading ≠ s.lastReading then ticks % 2 ^ 32 else s.lastDebounceTime
  let s1 :=
    if debounceDelay < sub64 ticks ldt then
      let currentState := !reading
      if currentState ≠ s.pressed then
        if currentState then
          { s with lastDebounceTime := ldt, pressed := true, pressStart := ticks % 2 ^ 32 }
        else if longPressThreshold ≤ sub64 ticks s.pressStart then
          { s with lastDebounceTime := ldt, pressed := false, longFlag := true }
        else
          { s with lastDebounceTime := ldt, pressed := false, shortFlag := true }
      else { s with lastDebounceTime := ldt }
    else { s with lastDebounceTime := ldt }
  { s1 with lastReading := reading }

/-- The state of one button after the first n polling-loop iterations,
where iteration i feeds raw level lvl i and tick tk i to
updateButton. -/
def btnRun (lvl : Nat → Bool) (tk : Nat → Nat) : Nat → BtnState
  | 0 => initBtnState
  | n + 1 => updateButton (btnRun lvl tk n) (lvl n) (tk n)

/-- Raw-level sequence of the debounce failing input: the level is
HIGH at the first poll and LOW from the second poll on. -/
def lvlA : Nat → Bool
  | 0 => true
  | _ => false

/-- Tick sequence of the debounce failing input: the first poll
happens at tick 2 ^ 32 (uptime just past 71.6 minutes) and every
later poll at tick 2 ^ 32 + 1000. -/
def tkA : Nat → Nat
  | 0 => 2 ^ 32
  | _ => 2 ^ 32 + 1000

/-- Raw-level sequence of the press-classification failing input:
HIGH, then LOW (the press), then HIGH again (the release). -/
def lvlB : Nat → Bool
  | 0 => true
  | 1 => false
  | _ => true

/-- Tick sequence of the press-classification failing input: polls at
ticks 2 ^ 32, 2 ^ 32 + 10 and 2 ^ 32 + 100000, so the button is held
for 99990 microseconds, well below the 500000 microsecond long-press
threshold. -/
def tkB : Nat → Nat
  | 0 => 2 ^ 32
  | 1 => 2 ^ 32 + 10
  | _ => 2 ^ 32 + 100000

/-- The member state of class ButtonHandler (ButtonHandler.h):
lastDebounceTime is a uint64_t initialised to 0; the four bool
members carry no initialiser in the source, so runs below start from
an explicitly chosen initial state. -/
structure HState where
  lastDebounceTime : Nat
  last_pin_value : Bool
  pressed_f : Bool
  shortPress_f : Bool
  longPress_f : Bool
deriving DecidableEq, Repr

/-- ButtonHandler::updateState (ButtonHandler.h lines 27-41) with
debounce delay D and long-press threshold T (the uint32_t constructor
parameters), raw pin value pin_value (true = HIGH) and tick counter
ticks (uint64_t, assumed below 2 ^ 64).  On a raw-level change the
code sets lastDebounceTime to ticks + debounceDelay (uint64
addition, wrapping modulo 2 ^ 64).  The outer guard requires
ticks >= lastDebounceTime and a pending debounced transition; the
press branch stores ticks + longPressThreshold into lastDebounceTime,
and the release branch re-tests ticks >= lastDebounceTime against the
unchanged value, so its else (the short-press assignment) can never
run. -/
def updateState (D T : Nat) (s : HState) (pin_value : Bool) (ticks : Nat) : HState :=
  let ldt := if pin_value ≠ s.last_pin_value then (ticks + D) % 2 ^ 64 else s.lastDebounceTime
  let s1 :=
    if ldt ≤ ticks ∧ s.pressed_f ≠ (!pin_value) then
      if !pin_value then
        { s with lastDebounceTime := (ticks + T) % 2 ^ 64, pressed_f := true }
      else if ldt ≤ ticks then
        { s with lastDebounceTime := ldt, pressed_f := false, longPress_f := true }
      else
        { s with lastDebounceTime := ldt, pressed_f := false, shortPress_f := true }
    else { s with lastDebounceTime := ldt }
  { s1 with last_pin_value := pin_value }

/-- ButtonHandler::isShortPress (ButtonHandler.h line 44): returns the
shortPress_f latch and clears it in the same call.  The C expression
shortPress_f ? !(shortPress_f = false) : false assigns false and
returns the negation of the assigned value, hence true. -/
def isShortPress (s : HState) : Bool × HState :=
  if s.shortPress_f then (true, { s with shortPress_f := false }) else (false, s)

/-- ButtonHandler::isLongPress (ButtonHandler.h line 45): returns the
longPress_f latch and clears it in the same call. -/
def isLongPress (s : HState) : Bool × HState :=
  if s.longPress_f then (true, { s with longPress_f := false }) else (false, s)

/-- Feeds a list of (pin value, tick) samples to
ButtonHandler::updateState in order. -/
def hRun (D T : Nat) (s : HState) : List (Bool × Nat) → HState
  | [] => s
  | (p, t) :: rest => hRun D T (updateState D T s p t) rest

/-- A concrete ButtonHandler initial state: deadline 0, pin level
HIGH (the pull-up idle level), button not pressed, no latches.  The
bool members are uninitialised in the source; this is the natural
idle assignment. -/
def hInit : HState :=
  { lastDebounceTime := 0
    last_pin_value := true
    pressed_f := false
    shortPress_f := false
    longPress_f := false }

/-- Sample trace for ButtonHandler::updateState with debounce delay
50000 and threshold 500000: the raw level goes LOW at tick 100000,
the press debounces at tick 200000, the raw level returns HIGH at
tick 250000 and the release debounces at tick 320000 — a press held
well below the long-press threshold. -/
def hTrace : List (Bool × Nat) :=
  [(true, 0), (false, 100000), (false, 200000), (true, 250000), (true, 320000)]

/-- The persistent statics of get_tick (main.cpp lines 242-243):
overflow and lastMicros, both uint32_t and hence below 2 ^ 32. -/
structure TickState where
  overflow : Nat
  lastMicros : Nat
deriving DecidableEq, Repr

/-- Startup values of the statics of get_tick: overflow = 0,
lastMicros = 0. -/
def initTick : TickState := { overflow := 0, lastMicros := 0 }

/-- One call of get_tick (main.cpp lines 240-247) given the value
currentMicros returned by micros() for this call (a uint32_t, assumed
below 2 ^ 32).  The uint32_t overflow counter gains one, wrapping
modulo 2 ^ 32, exactly when currentMicros is numerically below the
stored lastMicros; the call returns
((uint64_t)overflow << 32) | currentMicros together with the updated
statics. -/
def get_tick (s : TickState) (currentMicros : Nat) : Nat × TickState :=
  let ov := (s.overflow + if currentMicros < s.lastMicros then 1 else 0) % 2 ^ 32
  ((ov <<< 32) ||| currentMicros, { overflow := ov, lastMicros := currentMicros })

/-- The statics of get_tick before call n, when call i reads raw
sample g i from micros(). -/
def tickSt (g : Nat → Nat) : Nat → TickState
  | 0 => initTick
  | n + 1 => (get_tick (tickSt g n) (g n)).2

/-- The 64-bit value returned by call n of get_tick (calls numbered
from 0) when call i reads raw sample g i. -/
def tickVal (g : Nat → Nat) (n : Nat) : Nat := (get_tick (tickSt g n) (g n)).1

/-- The value held in lastMicros when call n of get_tick runs: 0 for
the first call, the previous raw sample afterwards. -/
def prevSample (g : Nat → Nat) : Nat → Nat
  | 0 => 0
  | n + 1 => g n

/-- The number of raw-counter wraparounds observed during the first n
calls of get_tick: call i observes a wraparound when its raw sample
is numerically below the raw value stored by the call before it. -/
def wrapCount (g : Nat → Nat) : Nat → Nat
  | 0 => 0
  | n + 1 => wrapCount g n + (if g n < prevSample g n then 1 else 0)

/-- A raw micros() sample sequence that alternates between 1 and 0,
so every second call observes a wraparound while consecutive calls
are always separated by at most one wraparound. -/
def alt (i : Nat) : Nat := if i % 2 = 0 then 1 else 0

/-- A device state armed for an LED-echo read: LED pattern 0b000101
and lastCommandReadLED set, as after the write [0x40, 0b10000101]. -/
def devEcho : DevState :=
  { initDevState with ledState := 5, lastCommandReadLED := true }

/-- A device state in button-status mode with a mix of button flags
set: the plus button currently pressed with a pending short-press
latch and the minus button released with a pending long-press
latch. -/
def devBtn : DevState :=
  { initDevState with
      btnPlusPressed := true
      btnPlusShort := true
      btnMinusLong := true }

/-! ## Theorems -/

/-- C1: in LED-echo mode a read returns ledState | 0x80 and clears
the read-mode flag in the same read, so the immediately following
read (with no intervening write) produces the button-status byte;
and the startup mode is button status (flag false). -/
theorem c1_led_echo_one_shot (s : DevState) (h : s.lastCommandReadLED = true) :
    (requestEvent s).1 = s.ledState ||| 0x80 ∧
    ((requestEvent s).2).lastCommandReadLED = false ∧
    (requestEvent ((requestEvent s).2)).1 = statusByte ((requestEvent s).2) ∧
    initDevState.lastCommandReadLED = false := by
  simp [requestEvent, h, initDevState]

/-- Witness for c1_led_echo_one_shot at the concrete state devEcho. -/
theorem c1_led_echo_one_shot_witness :
    devEcho.lastCommandReadLED = true ∧
    ((requestEvent devEcho).1 = devEcho.ledState ||| 0x80 ∧
     ((requestEvent devEcho).2).lastCommandReadLED = false ∧
     (requestEvent ((requestEvent devEcho).2)).1 = statusByte ((requestEvent devEcho).2) ∧
     initDevState.lastCommandReadLED = false) :=
  ⟨rfl, c1_led_echo_one_shot devEcho rfl⟩

set_option maxRecDepth 100000 in
/-- C2: a two-byte write [0x40, data] stores data & 0x3F into
ledState, sets the read-mode flag to whether bit 7 of data is set,
and drives the six LED outputs (pins 4 to 9) according to bits 0 to 5
of the new ledState. -/
theorem c2_write_led (s : DevState) (data : Nat) (h : data < 256) :
    ((receiveEvent s [CMD_WRITE_LED, data]).1).ledState = data &&& 0x3F ∧
    (((receiveEvent s [CMD_WRITE_LED, data]).1).lastCommandReadLED = true ↔
      data &&& 0x80 ≠ 0) ∧
    (receiveEvent s [CMD_WRITE_LED, data]).2 =
      [(LED1_PIN, (data &&& 0x3F).testBit 0), (LED2_PIN, (data &&& 0x3F).testBit 1),
       (LED3_PIN, (data &&& 0x3F).testBit 2), (LED4_PIN, (data &&& 0x3F).testBit 3),
       (LED5_PIN, (data &&& 0x3F).testBit 4), (LED6_PIN, (data &&& 0x3F).testBit 5)] := by
  have h2 : ∀ d, d < 256 →
      (((if d &&& 0x80 ≠ 0 then true else false) = true) ↔ d &&& 0x80 ≠ 0) := by decide
  have h3 : ∀ d, d < 256 →
      ([((4 : Nat), if (d &&& 0x3F) &&& 0x01 ≠ 0 then true else false),
        ((5 : Nat), if (d &&& 0x3F) &&& 0x02 ≠ 0 then true else false),
        ((6 : Nat), if (d &&& 0x3F) &&& 0x04 ≠ 0 then true else false),
        ((7 : Nat), if (d &&& 0x3F) &&& 0x08 ≠ 0 then true else false),
        ((8 : Nat), if (d &&& 0x3F) &&& 0x10 ≠ 0 then true else false),
        ((9 : Nat), if (d &&& 0x3F) &&& 0x20 ≠ 0 then true else false)] =
       [((4 : Nat), (d &&& 0x3F).testBit 0), ((5 : Nat), (d &&& 0x3F).testBit 1),
        ((6 : Nat), (d &&& 0x3F).testBit 2), ((7 : Nat), (d &&& 0x3F).testBit 3),
        ((8 : Nat), (d &&& 0x3F).testBit 4), ((9 : Nat), (d &&& 0x3F).testBit 5)]) := by
    decide
  exact ⟨rfl, h2 data h, h3 data h⟩

/-- Witness for c2_write_led at data = 0x85 (the spec scenario
payload 0b10000101). -/
theorem c2_write_led_witness :
    (0x85 : Nat) < 256 ∧
    (((receiveEvent initDevState [CMD_WRITE_LED, 0x85]).1).ledState = 0x85 &&& 0x3F ∧
     (((receiveEvent initDevState [CMD_WRITE_LED, 0x85]).1).lastCommandReadLED = true ↔
       (0x85 : Nat) &&& 0x80 ≠ 0) ∧
     (receiveEvent initDevState [CMD_WRITE_LED, 0x85]).2 =
       [(LED1_PIN, ((0x85 : Nat) &&& 0x3F).testBit 0), (LED2_PIN, ((0x85 : Nat) &&& 0x3F).testBit 1),
        (LED3_PIN, ((0x85 : Nat) &&& 0x3F).testBit 2), (LED4_PIN, ((0x85 : Nat) &&& 0x3F).testBit 3),
        (LED5_PIN, ((0x85 : Nat) &&& 0x3F).testBit 4), (LED6_PIN, ((0x85 : Nat) &&& 0x3F).testBit 5)]) :=
  ⟨by decide, c2_write_led initDevState 0x85 (by decide)⟩

/-- C3: in button-status mode the response byte carries
minus-pressed, minus-short, minus-long in bits 0 to 2, plus-pressed,
plus-short, plus-long in bits 3 to 5, zeros in bits 6 and 7; the same
read clears all four short/long latches and leaves both pressed
flags untouched. -/
theorem c3_button_status_read (s : DevState) (h : s.lastCommandReadLED = false) :
    ((requestEvent s).1).testBit 0 = s.btnMinusPressed ∧
    ((requestEvent s).1).testBit 1 = s.btnMinusShort ∧
    ((requestEvent s).1).testBit 2 = s.btnMinusLong ∧
    ((requestEvent s).1).testBit 3 = s.btnPlusPressed ∧
    ((requestEvent s).1).testBit 4 = s.btnPlusShort ∧
    ((requestEvent s).1).testBit 5 = s.btnPlusLong ∧
    ((requestEvent s).1).testBit 6 = false ∧
    ((requestEvent s).1).testBit 7 = false ∧
    ((requestEvent s).2).btnPlusShort = false ∧
    ((requestEvent s).2).btnPlusLong = false ∧
    ((requestEvent s).2).btnMinusShort = false ∧
    ((requestEvent s).2).btnMinusLong = false ∧
    ((requestEvent s).2).btnPlusPressed = s.btnPlusPressed ∧
    ((requestEvent s).2).btnMinusPressed = s.btnMinusPressed := by
  obtain ⟨led, flag, p1, p2, p3, m1, m2, m3⟩ := s
  cases flag with
  | true => simp at h
  | false =>
      cases p1 <;> cases p2 <;> cases p3 <;> cases m1 <;> cases m2 <;> cases m3 <;>
        simp +decide [requestEvent, statusByte]

/-- Witness for c3_button_status_read at the concrete state devBtn. -/
theorem c3_button_status_read_witness :
    devBtn.lastCommandReadLED = false ∧
    (((requestEvent devBtn).1).testBit 0 = devBtn.btnMinusPressed ∧
     ((requestEvent devBtn).1).testBit 1 = devBtn.btnMinusShort ∧
     ((requestEvent devBtn).1).testBit 2 = devBtn.btnMinusLong ∧
     ((requestEvent devBtn).1).testBit 3 = devBtn.btnPlusPressed ∧
     ((requestEvent devBtn).1).testBit 4 = devBtn.btnPlusShort ∧
     ((requestEvent devBtn).1).testBit 5 = devBtn.btnPlusLong ∧
     ((requestEvent devBtn).1).testBit 6 = false ∧
     ((requestEvent devBtn).1).testBit 7 = false ∧
     ((requestEvent devBtn).2).btnPlusShort = false ∧
     ((requestEvent devBtn).2).btnPlusLong = false ∧
     ((requestEvent devBtn).2).btnMinusShort = false ∧
     ((requestEvent devBtn).2).btnMinusLong = false ∧
     ((requestEvent devBtn).2).btnPlusPressed = devBtn.btnPlusPressed ∧
     ((requestEvent devBtn).2).btnMinusPressed = devBtn.btnMinusPressed) :=
  ⟨rfl, c3_button_status_read devBtn rfl⟩

/-- C4: a write that delivers fewer than two bytes, or whose first
byte differs from 0x40, leaves the whole device state unchanged and
drives no LED output. -/
theorem c4_reject_malformed_write (s : DevState) (bytes : List Nat)
    (h : bytes.length < 2 ∨ bytes.head? ≠ some CMD_WRITE_LED) :
    receiveEvent s bytes = (s, []) := by
  match bytes with
  | [] => rfl
  | [c] => rfl
  | c :: d :: rest =>
    rcases h with h | h
    · simp only [List.length_cons] at h
      omega
    · have hc : c ≠ CMD_WRITE_LED := by simpa using h
      simp [receiveEvent, hc]

/-- Witness for c4_reject_malformed_write at the spec scenario write
[0x41, 0xFF]. -/
theorem c4_reject_malformed_write_witness :
    (([0x41, 0xFF] : List Nat).length < 2 ∨
      ([0x41, 0xFF] : List Nat).head? ≠ some CMD_WRITE_LED) ∧
    receiveEvent initDevState [0x41, 0xFF] = (initDevState, []) :=
  ⟨by decide, c4_reject_malformed_write initDevState [0x41, 0xFF] (by decide)⟩

/-- C8: isShortPress and isLongPress each return the current latch
value and clear the latch in the same call, so two consecutive calls
with no event in between return the old value and then false. -/
theorem c8_consuming_queries (s : HState) :
    (isShortPress s).1 = s.shortPress_f ∧
    ((isShortPress s).2).shortPress_f = false ∧
    (isShortPress ((isShortPress s).2)).1 = false ∧
    (isLongPress s).1 = s.longPress_f ∧
    ((isLongPress s).2).longPress_f = false ∧
    (isLongPress ((isLongPress s).2)).1 = false := by
  obtain ⟨ldt, lpv, pf, sf, lf⟩ := s
  cases sf <;> cases lf <;> simp [isShortPress, isLongPress]

/-- C10: a read only touches its own branch: an LED-echo read clears
exactly the read-mode flag and leaves the LED byte, both pressed
flags and all four latches as they were; a button-status read clears
exactly the four latches and leaves the LED byte, the read-mode flag
and both pressed flags as they were. -/
theorem c10_read_frame (s : DevState) :
    (if s.lastCommandReadLED then
        ((requestEvent s).2).lastCommandReadLED = false ∧
        ((requestEvent s).2).ledState = s.ledState ∧
        ((requestEvent s).2).btnPlusPressed = s.btnPlusPressed ∧
        ((requestEvent s).2).btnPlusShort = s.btnPlusShort ∧
        ((requestEvent s).2).btnPlusLong = s.btnPlusLong ∧
        ((requestEvent s).2).btnMinusPressed = s.btnMinusPressed ∧
        ((requestEvent s).2).btnMinusShort = s.btnMinusShort ∧
        ((requestEvent s).2).btnMinusLong = s.btnMinusLong
      else
        ((requestEvent s).2).btnPlusShort = false ∧
        ((requestEvent s).2).btnPlusLong = false ∧
        ((requestEvent s).2).btnMinusShort = false ∧
        ((requestEvent s).2).btnMinusLong = false ∧
        ((requestEvent s).2).ledState = s.ledState ∧
        ((requestEvent s).2).lastCommandReadLED = s.lastCommandReadLED ∧
        ((requestEvent s).2).btnPlusPressed = s.btnPlusPressed ∧
        ((requestEvent s).2).btnMinusPressed = s.btnMinusPressed) := by
  cases hb : s.lastCommandReadLED <;> simp [requestEvent, hb]

/-- C5 failing input: with the tick sequence tkB (uptime past 2 ^ 32
microseconds) and level sequence lvlB, the button goes through a
debounced press (step 1) and a debounced release (step 2) whose real
pressed duration tkB 2 - tkB 1 = 99990 microseconds is far below the
500000 microsecond threshold, yet the run sets the long-press latch
and not the short-press latch: pressStart keeps only ticks modulo
2 ^ 32 (it is an unsigned long), so the elapsed-time computation at
the release is off by 2 ^ 32. -/
theorem c5_truncation_eval :
    Monotone tkB ∧ (∀ i, tkB i < 2 ^ 64) ∧
    (btnRun lvlB tkB 1).pressed = false ∧
    (btnRun lvlB tkB 2).pressed = true ∧
    (btnRun lvlB tkB 3).pressed = false ∧
    tkB 2 - tkB 1 < longPressThreshold ∧
    (btnRun lvlB tkB 3).shortFlag = false ∧
    (btnRun lvlB tkB 3).longFlag = true := by
  refine ⟨?_, ?_, by decide, by decide, by decide, by decide, by decide, by decide⟩
  · apply monotone_nat_of_le_succ
    intro n
    match n with
    | 0 => decide
    | 1 => decide
    | n + 2 => exact Nat.le_refl _
  · intro i
    match i with
    | 0 => decide
    | 1 => decide
    | i + 2 => show (2 : Nat) ^ 32 + 100000 < 2 ^ 64; decide

/-- C6 failing input: with the tick sequence tkA (uptime past 2 ^ 32
microseconds) and level sequence lvlA, the debounced pressed flag
flips at the very step whose sample changed the raw level — the
level has been stable for zero time, far less than debounceDelay:
lastDebounceTime keeps only ticks modulo 2 ^ 32 (it is an unsigned
long), so ticks - lastDebounceTime is at least 2 ^ 32 and the
debounce gate is open immediately. -/
theorem c6_truncation_eval :
    Monotone tkA ∧ (∀ i, tkA i < 2 ^ 64) ∧
    (btnRun lvlA tkA 2).pressed ≠ (btnRun lvlA tkA 1).pressed ∧
    lvlA 1 ≠ lvlA 0 ∧
    tkA 1 ≤ tkA 0 + debounceDelay := by
  refine ⟨?_, ?_, by decide, by decide, by decide⟩
  · apply monotone_nat_of_le_succ
    intro n
    match n with
    | 0 => decide
    | n + 1 => exact Nat.le_refl _
  · intro i
    match i with
    | 0 => decide
    | i + 1 => show (2 : Nat) ^ 32 + 1000 < 2 ^ 64; decide

/-- The short-press branch of ButtonHandler::updateState can never
run: it requires ticks >= lastDebounceTime to hold at the outer guard
and to fail at the inner test against the same unchanged value.  So a
call never raises the shortPress_f latch. -/
theorem updateState_never_sets_short (D T : Nat) (s : HState) (p : Bool) (t : Nat) :
    (updateState D T s p t).shortPress_f = s.shortPress_f := by
  unfold updateState
  dsimp only
  split_ifs <;> simp_all

/-- C7 failing input: feeding ButtonHandler::updateState (debounce
50000, threshold 500000) the trace hTrace from hInit produces a
debounced press after the third sample and a debounced release after
the fifth, a pressed duration of 120000 microseconds, below the
threshold; yet the run leaves shortPress_f false and sets
longPress_f. -/
theorem c7_short_unreachable_eval :
    (hRun 50000 500000 hInit (hTrace.take 3)).pressed_f = true ∧
    (hRun 50000 500000 hInit hTrace).pressed_f = false ∧
    (320000 : Nat) - 200000 < 500000 ∧
    (hRun 50000 500000 hInit hTrace).shortPress_f = false ∧
    (hRun 50000 500000 hInit hTrace).longPress_f = true := by
  refine ⟨by decide, by decide, by decide, by decide, by decide⟩

/-- The uint64 subtraction coincides with Nat subtraction when the
subtrahend does not exceed the minuend and no wrap occurs. -/
theorem sub64_eq (a b : Nat) (hb : b ≤ a) (ha : a < 2 ^ 64) : sub64 a b = a - b := by
  unfold sub64
  omega

/-- The raw reading fed to updateButton becomes the stored last
reading. -/
theorem updateButton_lastReading (s : BtnState) (r : Bool) (t : Nat) :
    (updateButton s r t).lastReading = r := rfl

/-- Every branch of updateButton stores the freshly computed debounce
timestamp. -/
theorem updateButton_ldt (s : BtnState) (r : Bool) (t : Nat) :
    (updateButton s r t).lastDebounceTime =
      if r ≠ s.lastReading then t % 2 ^ 32 else s.lastDebounceTime := by
  unfold updateButton
  dsimp only
  split_ifs <;> rfl

/-- The debounced pressed flag produced by one updateButton call as a
function of the debounce gate and the accepted level. -/
theorem updateButton_pressed (s : BtnState) (r : Bool) (t : Nat) :
    (updateButton s r t).pressed =
      if debounceDelay <
          sub64 t (if r ≠ s.lastReading then t % 2 ^ 32 else s.lastDebounceTime) then
        (if (!r) ≠ s.pressed then !r else s.pressed)
      else s.pressed := by
  unfold updateButton
  dsimp only
  split_ifs <;> simp_all

/-- A call that leaves the pressed flag unchanged leaves pressStart
unchanged as well. -/
theorem updateButton_pressStart_of_pressed_eq (s : BtnState) (r : Bool) (t : Nat)
    (h : (updateButton s r t).pressed = s.pressed) :
    (updateButton s r t).pressStart = s.pressStart := by
  unfold updateButton at h ⊢
  dsimp only at h ⊢
  split_ifs at h ⊢ <;> simp_all

/-- A call that flips the pressed flag from false to true stores the
current tick, narrowed to 32 bits, into pressStart. -/
theorem updateButton_press_sets_start (s : BtnState) (r : Bool) (t : Nat)
    (h0 : s.pressed = false) (h1 : (updateButton s r t).pressed = true) :
    (updateButton s r t).pressStart = t % 2 ^ 32 := by
  unfold updateButton at h1 ⊢
  dsimp only at h1 ⊢
  split_ifs at h1 ⊢ <;> simp_all

/-- A call that flips the pressed flag from true to false classifies
the press: it raises exactly the long latch when the (wrapping)
elapsed time since pressStart reaches longPressThreshold, and exactly
the short latch otherwise. -/
theorem updateButton_release (s : BtnState) (r : Bool) (t : Nat)
    (h0 : s.pressed = true) (h1 : (updateButton s r t).pressed = false) :
    ((updateButton s r t).longFlag =
      if longPressThreshold ≤ sub64 t s.pressStart then true else s.longFlag) ∧
    ((updateButton s r t).shortFlag =
      if longPressThreshold ≤ sub64 t s.pressStart then s.shortFlag else true) := by
  unfold updateButton at h1 ⊢
  dsimp only at h1 ⊢
  split_ifs at h1 ⊢ <;> simp_all

/-- A call that flips the pressed flag was made with a raw reading
equal to the stored last reading (a change would have reset the
deadline and closed the gate) and with an open debounce gate — valid
whenever the tick is still below 2 ^ 32, before the narrowing of
lastDebounceTime can lose information. -/
theorem updateButton_change (s : BtnState) (r : Bool) (t : Nat) (ht : t < 2 ^ 32)
    (hch : (updateButton s r t).pressed ≠ s.pressed) :
    r = s.lastReading ∧ debounceDelay < sub64 t s.lastDebounceTime := by
  rw [updateButton_pressed] at hch
  by_cases hr : r = s.lastReading
  · refine ⟨hr, ?_⟩
    have hinner : (if r ≠ s.lastReading then t % 2 ^ 32 else s.lastDebounceTime) =
        s.lastDebounceTime := if_neg (by simp [hr])
    rw [hinner] at hch
    by_contra hgate
    rw [if_neg hgate] at hch
    exact hch rfl
  · exfalso
    have hinner : (if r ≠ s.lastReading then t % 2 ^ 32 else s.lastDebounceTime) =
        t % 2 ^ 32 := if_pos hr
    rw [hinner, Nat.mod_eq_of_lt ht] at hch
    rw [show sub64 t t = 0 from by unfold sub64; omega] at hch
    rw [if_neg (by omega)] at hch
    exact hch rfl

/-- Along any polled run, the stored debounce timestamp never runs
ahead of the current tick. -/
theorem btnRun_ldt_le (lvl : Nat → Bool) (tk : Nat → Nat)
    (hmono : Monotone tk) (hb : ∀ i, tk i < 2 ^ 32) :
    ∀ n, (btnRun lvl tk n).lastDebounceTime ≤ tk n := by
  intro n
  induction n with
  | zero => exact Nat.zero_le _
  | succ m ih =>
      have e := updateButton_ldt (btnRun lvl tk m) (lvl m) (tk m)
      by_cases hc : lvl m ≠ (btnRun lvl tk m).lastReading
      · rw [if_pos hc] at e
        rw [show (btnRun lvl tk (m + 1)).lastDebounceTime = tk m % 2 ^ 32 from e]
        rw [Nat.mod_eq_of_lt (hb m)]
        exact hmono (Nat.le_succ m)
      · rw [if_neg hc] at e
        rw [show (btnRun lvl tk (m + 1)).lastDebounceTime =
              (btnRun lvl tk m).lastDebounceTime from e]
        exact le_trans ih (hmono (Nat.le_succ m))

/-- Along any polled run with non-decreasing ticks below 2 ^ 32,
every earlier sample whose level differs from the currently stored
last reading was taken no later than the stored debounce
timestamp. -/
theorem btnRun_stale (lvl : Nat → Bool) (tk : Nat → Nat)
    (hmono : Monotone tk) (hb : ∀ i, tk i < 2 ^ 32) :
    ∀ n, ∀ j, j < n → lvl j ≠ (btnRun lvl tk n).lastReading →
      tk j ≤ (btnRun lvl tk n).lastDebounceTime := by
  intro n
  induction n with
  | zero => intro j hj; omega
  | succ m ih =>
      intro j hj hne
      have hlr : (btnRun lvl tk (m + 1)).lastReading = lvl m :=
        updateButton_lastReading _ _ _
      rw [hlr] at hne
      have e := updateButton_ldt (btnRun lvl tk m) (lvl m) (tk m)
      by_cases hc : lvl m ≠ (btnRun lvl tk m).lastReading
      · rw [if_pos hc] at e
        rw [show (btnRun lvl tk (m + 1)).lastDebounceTime = tk m % 2 ^ 32 from e]
        rw [Nat.mod_eq_of_lt (hb m)]
        exact hmono (by omega : j ≤ m)
      · rw [if_neg hc] at e
        rw [show (btnRun lvl tk (m + 1)).lastDebounceTime =
              (btnRun lvl tk m).lastDebounceTime from e]
        push_neg at hc
        by_cases hjm : j = m
        · exact absurd (by rw [hjm]) hne
        · exact ih j (by omega) (by rw [← hc]; exact hne)

/-- The claim of C6 restricted to uptimes before the first micros()
wraparound: while every tick is below 2 ^ 32 the debounced pressed
flag changes at step m only if every sample within debounceDelay
before that step already showed the same raw level as the accepted
one — the stability requirement of spec 4.2 — so the narrowing of
lastDebounceTime is the only cause of the C6 failure. -/
theorem btnRun_debounce_stable (lvl : Nat → Bool) (tk : Nat → Nat)
    (hmono : Monotone tk) (hb : ∀ i, tk i < 2 ^ 32) (m : Nat)
    (hch : (btnRun lvl tk (m + 1)).pressed ≠ (btnRun lvl tk m).pressed) :
    ∀ j, j ≤ m → tk m ≤ tk j + debounceDelay → lvl j = lvl m := by
  obtain ⟨hr, hgate⟩ := updateButton_change (btnRun lvl tk m) (lvl m) (tk m) (hb m) hch
  have hldt : (btnRun lvl tk m).lastDebounceTime ≤ tk m := btnRun_ldt_le lvl tk hmono hb m
  rw [sub64_eq (tk m) _ hldt (lt_trans (hb m) (by norm_num))] at hgate
  intro j hj hwin
  by_contra hne
  have hj_lt : j < m := by
    rcases Nat.lt_or_ge j m with h | h
    · exact h
    · exact absurd (by rw [show j = m from by omega]) hne
  have hstale := btnRun_stale lvl tk hmono hb m j hj_lt (by rw [← hr]; exact hne)
  omega

/-- The claim of C5 restricted to uptimes before the first micros()
wraparound: while every tick is below 2 ^ 32, a debounced press at
step p followed by a debounced release at step q with the flag held
in between classifies by the true elapsed duration tk q - tk p: a
sub-threshold cycle raises exactly the short latch and a cycle at or
above the threshold raises exactly the long latch, and no single
release touches both latches — so the narrowing of pressStart is the
only cause of the C5 failure. -/
theorem btnRun_press_release_classification (lvl : Nat → Bool) (tk : Nat → Nat)
    (hmono : Monotone tk) (hb : ∀ i, tk i < 2 ^ 32) (p q : Nat) (hpq : p < q)
    (hp0 : (btnRun lvl tk p).pressed = false)
    (hp1 : (btnRun lvl tk (p + 1)).pressed = true)
    (hq0 : (btnRun lvl tk q).pressed = true)
    (hq1 : (btnRun lvl tk (q + 1)).pressed = false)
    (hmid : ∀ j, p < j → j ≤ q → (btnRun lvl tk j).pressed = true) :
    (tk q - tk p < longPressThreshold →
      (btnRun lvl tk (q + 1)).shortFlag = true ∧
      (btnRun lvl tk (q + 1)).longFlag = (btnRun lvl tk q).longFlag) ∧
    (longPressThreshold ≤ tk q - tk p →
      (btnRun lvl tk (q + 1)).longFlag = true ∧
      (btnRun lvl tk (q + 1)).shortFlag = (btnRun lvl tk q).shortFlag) ∧
    ((btnRun lvl tk (q + 1)).shortFlag = (btnRun lvl tk q).shortFlag ∨
      (btnRun lvl tk (q + 1)).longFlag = (btnRun lvl tk q).longFlag) := by
  have hps : ∀ j, p + 1 ≤ j → (j ≤ q → (btnRun lvl tk j).pressStart = tk p) := by
    intro j hj
    induction j, hj using Nat.le_induction with
    | base =>
        intro _
        have h := updateButton_press_sets_start (btnRun lvl tk p) (lvl p) (tk p) hp0 hp1
        rw [Nat.mod_eq_of_lt (hb p)] at h
        exact h
    | succ j hj ihj =>
        intro hjq
        have hja : (btnRun lvl tk (j + 1)).pressed = true := hmid (j + 1) (by omega) hjq
        have hjb : (btnRun lvl tk j).pressed = true := hmid j (by omega) (by omega)
        have heq : (btnRun lvl tk (j + 1)).pressed = (btnRun lvl tk j).pressed := by
          rw [hja, hjb]
        have h := updateButton_pressStart_of_pressed_eq (btnRun lvl tk j) (lvl j) (tk j) heq
        exact h.trans (ihj (by omega))
  have hrel := updateButton_release (btnRun lvl tk q) (lvl q) (tk q) hq0 hq1
  rw [hps q (by omega) (Nat.le_refl q)] at hrel
  rw [sub64_eq (tk q) (tk p) (hmono (Nat.le_of_lt hpq))
        (lt_trans (hb q) (by norm_num))] at hrel
  obtain ⟨hlong, hshort⟩ := hrel
  refine ⟨?_, ?_, ?_⟩
  · intro hlt
    have hT : ¬ longPressThreshold ≤ tk q - tk p := by omega
    rw [if_neg hT] at hlong
    rw [if_neg hT] at hshort
    exact ⟨hshort, hlong⟩
  · intro hge
    rw [if_pos hge] at hlong
    rw [if_pos hge] at hshort
    exact ⟨hlong, hshort⟩
  · by_cases hT : longPressThreshold ≤ tk q - tk p
    · left
      rw [if_pos hT] at hshort
      exact hshort
    · right
      rw [if_neg hT] at hlong
      exact hlong

/-- Every sample of the alternating raw sequence is a valid uint32
value. -/
theorem alt_lt_two_pow (i : Nat) : alt i < 2 ^ 32 := by
  unfold alt
  split <;> decide

/-- Joining a value shifted left by 32 bits with a value below 2 ^ 32
by bitwise or is plain addition. -/
theorem lor_shiftLeft32 (a b : Nat) (hb : b < 2 ^ 32) :
    (a <<< 32) ||| b = a * 2 ^ 32 + b := by
  rw [Nat.shiftLeft_eq]
  rw [show a * 2 ^ 32 = 2 ^ 32 * a from Nat.mul_comm a _]
  exact (Nat.mul_add_lt_is_or hb a).symm

/-- The lastMicros static holds 0 before the first get_tick call and
the previous raw sample afterwards. -/
theorem tickSt_lastMicros (g : Nat → Nat) (n : Nat) :
    (tickSt g n).lastMicros = prevSample g n := by
  cases n <;> rfl

/-- The overflow static equals the number of observed wraparounds
reduced modulo 2 ^ 32. -/
theorem tickSt_overflow (g : Nat → Nat) (n : Nat) :
    (tickSt g n).overflow = wrapCount g n % 2 ^ 32 := by
  induction n with
  | zero => rfl
  | succ m ih =>
      have step : (tickSt g (m + 1)).overflow =
          ((tickSt g m).overflow + if g m < (tickSt g m).lastMicros then 1 else 0) % 2 ^ 32 := rfl
      rw [step, tickSt_lastMicros, ih]
      show _ = wrapCount g (m + 1) % 2 ^ 32
      have unf : wrapCount g (m + 1) =
          wrapCount g m + (if g m < prevSample g m then 1 else 0) := rfl
      rw [unf]
      by_cases hw : g m < prevSample g m
      · rw [if_pos hw]; omega
      · rw [if_neg hw]; omega

/-- The value returned by call n of get_tick is the wraparound count
after that call, reduced modulo 2 ^ 32, shifted into the high word,
joined with the raw sample of that call. -/
theorem tickVal_eq (g : Nat → Nat) (n : Nat) :
    tickVal g n = ((wrapCount g (n + 1) % 2 ^ 32) <<< 32) ||| g n := by
  have step : tickVal g n =
      ((((tickSt g n).overflow + if g n < (tickSt g n).lastMicros then 1 else 0) % 2 ^ 32)
        <<< 32) ||| g n := rfl
  rw [step, tickSt_lastMicros, tickSt_overflow]
  have unf : wrapCount g (n + 1) =
      wrapCount g n + (if g n < prevSample g n then 1 else 0) := rfl
  rw [unf]
  by_cases hw : g n < prevSample g n
  · rw [if_pos hw]
    have e : (wrapCount g n % 2 ^ 32 + 1) % 2 ^ 32 = (wrapCount g n + 1) % 2 ^ 32 := by omega
    rw [e]
  · rw [if_neg hw]
    have e : (wrapCount g n % 2 ^ 32 + 0) % 2 ^ 32 = (wrapCount g n + 0) % 2 ^ 32 := by omega
    rw [e]

/-- The alternating sequence observes exactly one wraparound per full
1-0 period: k wraparounds within the first 2k calls, and none during
an even-index call. -/
theorem wrapCount_alt (k : Nat) :
    wrapCount alt (2 * k) = k ∧ wrapCount alt (2 * k + 1) = k := by
  have wstep : ∀ j, wrapCount alt (j + 1) =
      wrapCount alt j + (if alt j < prevSample alt j then 1 else 0) := fun j => rfl
  induction k with
  | zero => exact ⟨rfl, by decide⟩
  | succ m ih =>
      have ha : alt (2 * m + 1) = 0 := by simp [alt, Nat.mul_add_mod]
      have hb : alt (2 * m) = 1 := by simp [alt, Nat.mul_mod_right]
      have hb2 : alt (2 * (m + 1)) = 1 := by simp [alt, Nat.mul_mod_right]
      have hp1 : prevSample alt (2 * m + 1) = alt (2 * m) := rfl
      have hp2 : prevSample alt (2 * (m + 1)) = alt (2 * m + 1) := by
        rw [show 2 * (m + 1) = 2 * m + 1 + 1 from by ring]
        rfl
      have heven : wrapCount alt (2 * (m + 1)) = m + 1 := by
        rw [show 2 * (m + 1) = 2 * m + 1 + 1 from by ring]
        rw [wstep, ih.2, ha, hp1, hb]
        simp
      refine ⟨heven, ?_⟩
      rw [wstep, heven, hb2, hp2, ha]
      simp

/-- C9 counterexample: feeding get_tick the alternating raw sequence
alt — consecutive calls always see at most one raw wraparound — makes
the returned 64-bit value strictly decrease from call
2 * 2 ^ 32 - 2 to call 2 * 2 ^ 32 - 1, the call at which the 32-bit
overflow counter itself wraps back to zero. -/
theorem c9_counterexample :
    (∀ i, alt i < 2 ^ 32) ∧
    tickVal alt (2 * 2 ^ 32 - 1) < tickVal alt (2 * 2 ^ 32 - 2) := by
  refine ⟨alt_lt_two_pow, ?_⟩
  rw [show 2 * 2 ^ 32 - 1 = 2 * (2 ^ 32 - 1) + 1 from by omega]
  rw [show 2 * 2 ^ 32 - 2 = 2 * (2 ^ 32 - 1) from by omega]
  have hveven : tickVal alt (2 * (2 ^ 32 - 1)) = ((2 ^ 32 - 1) <<< 32) ||| 1 := by
    rw [tickVal_eq]
    rw [(wrapCount_alt (2 ^ 32 - 1)).2]
    rw [Nat.mod_eq_of_lt (by omega : 2 ^ 32 - 1 < 2 ^ 32)]
    rw [show alt (2 * (2 ^ 32 - 1)) = 1 from by simp [alt, Nat.mul_mod_right]]
  have hvodd : tickVal alt (2 * (2 ^ 32 - 1) + 1) = 0 := by
    rw [tickVal_eq]
    rw [show 2 * (2 ^ 32 - 1) + 1 + 1 = 2 * 2 ^ 32 from by omega]
    rw [(wrapCount_alt (2 ^ 32)).1]
    rw [Nat.mod_self]
    rw [show alt (2 * (2 ^ 32 - 1) + 1) = 0 from by simp [alt, Nat.mul_add_mod]]
    decide
  rw [hveven, hvodd]
  rw [lor_shiftLeft32 _ 1 (by omega)]
  omega

/-- C9 amended: each call of get_tick returns the overflow counter
shifted into the high word joined with the current raw sample, with
the counter incremented exactly when the new raw sample is below the
previous one; and successive return values are non-decreasing
provided the total number of observed wraparounds stays below 2 ^ 32,
the point at which the uint32_t overflow counter itself wraps. -/
theorem c9_monotone_bounded (g : Nat → Nat) (hg : ∀ i, g i < 2 ^ 32) (n : Nat)
    (hW : wrapCount g (n + 2) < 2 ^ 32) :
    tickVal g n ≤ tickVal g (n + 1) ∧
    tickVal g (n + 1) = (wrapCount g (n + 2) <<< 32) ||| g (n + 1) ∧
    wrapCount g (n + 2) = wrapCount g (n + 1) + (if g (n + 1) < g n then 1 else 0) := by
  have e3 : wrapCount g (n + 2) =
      wrapCount g (n + 1) + (if g (n + 1) < g n then 1 else 0) := rfl
  have hle : wrapCount g (n + 1) ≤ wrapCount g (n + 2) := by
    rw [e3]; exact Nat.le_add_right _ _
  have hW1 : wrapCount g (n + 1) < 2 ^ 32 := Nat.lt_of_le_of_lt hle hW
  have e1 : tickVal g n = wrapCount g (n + 1) * 2 ^ 32 + g n := by
    rw [tickVal_eq, Nat.mod_eq_of_lt hW1, lor_shiftLeft32 _ _ (hg n)]
  have e2 : tickVal g (n + 1) = wrapCount g (n + 2) * 2 ^ 32 + g (n + 1) := by
    rw [tickVal_eq, Nat.mod_eq_of_lt hW, lor_shiftLeft32 _ _ (hg (n + 1))]
  refine ⟨?_, ?_, e3⟩
  · rw [e1, e2, e3]
    have hgn := hg n
    by_cases hlt : g (n + 1) < g n
    · rw [if_pos hlt]; omega
    · rw [if_neg hlt]; omega
  · rw [tickVal_eq, Nat.mod_eq_of_lt hW]

/-- Witness for c9_monotone_bounded at the alternating sequence and
call pair 0, 1. -/
theorem c9_monotone_bounded_witness :
    (∀ i, alt i < 2 ^ 32) ∧ wrapCount alt 2 < 2 ^ 32 ∧
    (tickVal alt 0 ≤ tickVal alt 1 ∧
     tickVal alt 1 = (wrapCount alt 2 <<< 32) ||| alt 1 ∧
     wrapCount alt 2 = wrapCount alt 1 + (if alt 1 < alt 0 then 1 else 0)) :=
  ⟨alt_lt_two_pow, by decide, c9_monotone_bounded alt alt_lt_two_pow 0 (by decide)⟩

end ShieldPanel
